import Mathlib

/-!
Shallow embedding of the 8259 PIC driver (`src/lib.rs`).

Hardware port I/O is modelled as an explicit event trace: a read event
records the address read and the byte the hardware returned (supplied by
an environment function `rp : Nat → Nat`, the pre-initialization hardware
state), and a write event records the address and byte written.  Bytes and
addresses are `Nat`s; the one place the Rust code does `u8` arithmetic
(`offset + 8` in `Pic::handles_interrupt`) is modelled with an explicit
`% 256`.
-/

/-- Constant `PIC_1_OFFSET` from the source. -/
def PIC_1_OFFSET : Nat := 0x20

/-- Constant `PIC_2_OFFSET` from the source. -/
def PIC_2_OFFSET : Nat := 0x28

/-- Constant `TIMER_INTERRUPT` from the source: `pub const TIMER_INTERRUPT: u8 = PIC_1_OFFSET;`. -/
def TIMER_INTERRUPT : Nat := PIC_1_OFFSET

/-- Constant `CMD_INIT` from the source: command sent to begin PIC initialization. -/
def CMD_INIT : Nat := 0x11

/-- Constant `CMD_END_OF_INTERRUPT` from the source. -/
def CMD_END_OF_INTERRUPT : Nat := 0x20

/-- Constant `MODE_8086` from the source. -/
def MODE_8086 : Nat := 0x01

/-- The `Pic` struct from the source: base offset plus the two port addresses.
In the source the ports are `Port<u8>` values; here we keep just their addresses
because all I/O is recorded in an explicit trace. -/
structure Pic where
  offset : Nat
  command : Nat
  data : Nat
deriving DecidableEq

/-- `create_pic_structs` from the source: the fixed primary/secondary pair. -/
def create_pic_structs : Pic × Pic :=
  ({ offset := PIC_1_OFFSET, command := 0x20, data := 0x21 },
   { offset := PIC_2_OFFSET, command := 0xA0, data := 0xA1 })

/-- One port I/O event: a read returning a byte, or a write of a byte. -/
inductive PortEvent where
  | read (addr val : Nat)
  | write (addr val : Nat)
deriving DecidableEq

/-- `Pic::handles_interrupt` from the source:
`self.offset <= interrupt_id && interrupt_id < self.offset + 8`,
with the `u8` addition `self.offset + 8` modelled as wrapping (`% 256`). -/
def Pic.handles_interrupt (p : Pic) (interrupt_id : Nat) : Bool :=
  decide (p.offset ≤ interrupt_id ∧ interrupt_id < (p.offset + 8) % 256)

/-- `Pic::end_of_interrupt` from the source: one write of
`CMD_END_OF_INTERRUPT` to the chip's command port. -/
def Pic.end_of_interrupt (p : Pic) : List (Nat × Nat) :=
  [(p.command, CMD_END_OF_INTERRUPT)]

/-- The public `handles_interrupt` from the source. -/
def handles_interrupt (interrupt_id : Nat) : Bool :=
  let (pic_1, pic_2) := create_pic_structs
  pic_1.handles_interrupt interrupt_id || pic_2.handles_interrupt interrupt_id

/-- The public `notify_end_of_interrupt` from the source, as the list of
hardware writes it performs, in order. -/
def notify_end_of_interrupt (interrupt_id : Nat) : List (Nat × Nat) :=
  let (pic_1, pic_2) := create_pic_structs
  if pic_1.handles_interrupt interrupt_id || pic_2.handles_interrupt interrupt_id then
    (if pic_2.handles_interrupt interrupt_id then pic_2.end_of_interrupt else [])
      ++ pic_1.end_of_interrupt
  else
    []

/-- `initialize` from the source, as its port I/O event trace.  `rp` gives
the byte the hardware returns for each read.  The source is straight-line
code: read both masks, then the eight configuration writes each followed by
a `wait()` (a write of `0` to port `0x80`), then the two mask restores. -/
def initialize_trace (rp : Nat → Nat) : List PortEvent :=
  let (pic_1, pic_2) := create_pic_structs
  let saved_mask1 := rp pic_1.data
  let saved_mask2 := rp pic_2.data
  [ PortEvent.read pic_1.data saved_mask1,
    PortEvent.read pic_2.data saved_mask2,
    PortEvent.write pic_1.command CMD_INIT,
    PortEvent.write 0x80 0,
    PortEvent.write pic_2.command CMD_INIT,
    PortEvent.write 0x80 0,
    PortEvent.write pic_1.data pic_1.offset,
    PortEvent.write 0x80 0,
    PortEvent.write pic_2.data pic_2.offset,
    PortEvent.write 0x80 0,
    PortEvent.write pic_1.data 4,
    PortEvent.write 0x80 0,
    PortEvent.write pic_2.data 2,
    PortEvent.write 0x80 0,
    PortEvent.write pic_1.data MODE_8086,
    PortEvent.write 0x80 0,
    PortEvent.write pic_2.data MODE_8086,
    PortEvent.write 0x80 0,
    PortEvent.write pic_1.data saved_mask1,
    PortEvent.write pic_2.data saved_mask2 ]

/-- The write sub-trace of `initialize`, as (address, byte) pairs in order. -/
def initialize_writes (rp : Nat → Nat) : List (Nat × Nat) :=
  (initialize_trace rp).filterMap fun e =>
    match e with
    | PortEvent.read _ _ => none
    | PortEvent.write a v => some (a, v)

/-- C8: the exposed constant `TIMER_INTERRUPT` equals the primary
controller's base offset `0x20` from the fixed addressing table. -/
theorem timer_interrupt_is_primary_offset :
    TIMER_INTERRUPT = PIC_1_OFFSET ∧ TIMER_INTERRUPT = 0x20 ∧
      (create_pic_structs).1.offset = TIMER_INTERRUPT :=
  ⟨rfl, rfl, rfl⟩

/-- C4: for every 8-bit vector `v`, `handles_interrupt v` is true iff
`0x20 ≤ v < 0x28` or `0x28 ≤ v < 0x30`.  Purity is captured by the
embedding: `handles_interrupt` is a plain `Nat → Bool` function producing
no port events. -/
theorem handles_interrupt_iff (v : Nat) (h : v < 256) :
    handles_interrupt v = true ↔
      (0x20 ≤ v ∧ v < 0x28) ∨ (0x28 ≤ v ∧ v < 0x30) := by
  simp only [handles_interrupt, create_pic_structs, Pic.handles_interrupt,
    PIC_1_OFFSET, PIC_2_OFFSET, Bool.or_eq_true, decide_eq_true_iff]
  try omega

/-- Witness for C4 at the concrete vectors `0x25` and `0x2C`. -/
theorem handles_interrupt_iff_witness :
    (0x25 : Nat) < 256 ∧
      (handles_interrupt 0x25 = true ↔
        ((0x20 ≤ 0x25 ∧ 0x25 < 0x28) ∨ (0x28 ≤ 0x25 ∧ (0x25 : Nat) < 0x30))) :=
  ⟨by decide, handles_interrupt_iff 0x25 (by decide)⟩

/-- C2: for every vector `v` with `0x28 ≤ v < 0x30`, `notify_end_of_interrupt v`
issues exactly two writes of the end-of-interrupt byte `0x20`: first to the
secondary command address `0xA0`, then to the primary command address `0x20`. -/
theorem notify_eoi_secondary_range (v : Nat) (h1 : 0x28 ≤ v) (h2 : v < 0x30) :
    notify_end_of_interrupt v = [(0xA0, 0x20), (0x20, 0x20)] := by
  simp only [notify_end_of_interrupt, create_pic_structs, Pic.handles_interrupt,
    Pic.end_of_interrupt, PIC_1_OFFSET, PIC_2_OFFSET, CMD_END_OF_INTERRUPT]
  split_ifs with ha hb
  · rfl
  · simp only [decide_eq_true_iff] at hb
    omega
  · simp only [Bool.or_eq_true, decide_eq_true_iff] at ha
    omega

/-- Witness for C2 at the concrete vector `0x2C`. -/
theorem notify_eoi_secondary_range_witness :
    (0x28 : Nat) ≤ 0x2C ∧ (0x2C : Nat) < 0x30 ∧
      notify_end_of_interrupt 0x2C = [(0xA0, 0x20), (0x20, 0x20)] :=
  ⟨by decide, by decide, notify_eoi_secondary_range 0x2C (by decide) (by decide)⟩

/-- C3: for every vector `v` with `0x20 ≤ v < 0x28`, `notify_end_of_interrupt v`
issues exactly one write, the end-of-interrupt byte `0x20` to the primary
command address `0x20`, and no write to the secondary. -/
theorem notify_eoi_primary_range (v : Nat) (h1 : 0x20 ≤ v) (h2 : v < 0x28) :
    notify_end_of_interrupt v = [(0x20, 0x20)] := by
  simp only [notify_end_of_interrupt, create_pic_structs, Pic.handles_interrupt,
    Pic.end_of_interrupt, PIC_1_OFFSET, PIC_2_OFFSET, CMD_END_OF_INTERRUPT]
  split_ifs with ha hb
  · simp only [decide_eq_true_iff] at hb
    omega
  · rfl
  · simp only [Bool.or_eq_true, decide_eq_true_iff] at ha
    omega

/-- Witness for C3 at the concrete vector `0x20` (the timer vector). -/
theorem notify_eoi_primary_range_witness :
    (0x20 : Nat) ≤ 0x20 ∧ (0x20 : Nat) < 0x28 ∧
      notify_end_of_interrupt 0x20 = [(0x20, 0x20)] :=
  ⟨by decide, by decide, notify_eoi_primary_range 0x20 (by decide) (by decide)⟩

/-- C5: for every vector `v` outside `[0x20, 0x30)`, `notify_end_of_interrupt v`
performs zero hardware writes. -/
theorem notify_eoi_unowned (v : Nat) (h : v < 0x20 ∨ 0x30 ≤ v) :
    notify_end_of_interrupt v = [] := by
  simp only [notify_end_of_interrupt, create_pic_structs, Pic.handles_interrupt,
    Pic.end_of_interrupt, PIC_1_OFFSET, PIC_2_OFFSET, CMD_END_OF_INTERRUPT]
  split_ifs with ha hb
  · simp only [decide_eq_true_iff] at hb
    omega
  · simp only [Bool.or_eq_true, decide_eq_true_iff] at ha
    omega
  · rfl

/-- Witness for C5 at the concrete vectors `0x00` and `0x30`. -/
theorem notify_eoi_unowned_witness :
    ((0 : Nat) < 0x20 ∨ (0x30 : Nat) ≤ 0) ∧ notify_end_of_interrupt 0 = [] ∧
      ((0x30 : Nat) < 0x20 ∨ (0x30 : Nat) ≤ 0x30) ∧ notify_end_of_interrupt 0x30 = [] :=
  ⟨Or.inl (by decide), notify_eoi_unowned 0 (Or.inl (by decide)),
   Or.inr (by decide), notify_eoi_unowned 0x30 (Or.inr (by decide))⟩

/-- C1: `initialize` first reads both masks, and its non-delay writes are, in
exactly this interleaved order: `0x11` to `0x20`, `0x11` to `0xA0`, `0x20` to
`0x21`, `0x28` to `0xA1`, `4` to `0x21`, `2` to `0xA1`, `0x01` to `0x21`,
`0x01` to `0xA1`, then the two mask restores. -/
theorem initialize_config_write_order (rp : Nat → Nat) :
    (initialize_trace rp).take 2 =
        [PortEvent.read 0x21 (rp 0x21), PortEvent.read 0xA1 (rp 0xA1)] ∧
    (initialize_trace rp).drop 2 =
        (initialize_writes rp).map (fun p => PortEvent.write p.1 p.2) ∧
    (initialize_writes rp).filter (fun e => e.1 != 0x80) =
        [(0x20, 0x11), (0xA0, 0x11), (0x21, 0x20), (0xA1, 0x28),
         (0x21, 4), (0xA1, 2), (0x21, 0x01), (0xA1, 0x01),
         (0x21, rp 0x21), (0xA1, rp 0xA1)] :=
  ⟨rfl, rfl, rfl⟩

/-- C7: the final two writes of `initialize` carry exactly the bytes returned
by the two mask reads performed before any configuration write; in particular
for masks `0xFF`/`0x00` the final writes are `0xFF` to `0x21` and `0x00` to
`0xA1`. -/
theorem initialize_restores_saved_masks (rp : Nat → Nat) :
    (initialize_trace rp).take 2 =
        [PortEvent.read 0x21 (rp 0x21), PortEvent.read 0xA1 (rp 0xA1)] ∧
    (initialize_writes rp).reverse.take 2 = [(0xA1, rp 0xA1), (0x21, rp 0x21)] ∧
    (initialize_writes fun a => if a = 0x21 then 0xFF else 0x00).reverse.take 2 =
        [(0xA1, 0x00), (0x21, 0xFF)] :=
  ⟨rfl, rfl, rfl⟩

/-- C9: the offset bytes that `initialize` programs into the chips (the 3rd
and 4th non-delay writes) are the `offset` fields of the pair returned by
`create_pic_structs`, which are the constants `PIC_1_OFFSET = 0x20` and
`PIC_2_OFFSET = 0x28`; the public ownership query tests vectors against the
very same offsets, and acknowledgment routing fires exactly on the vectors
the query owns. -/
theorem pic_offsets_single_source (rp : Nat → Nat) (v : Nat) (hv : v < 256) :
    ((initialize_writes rp).filter (fun e => e.1 != 0x80))[2]? =
        some ((create_pic_structs).1.data, (create_pic_structs).1.offset) ∧
    ((initialize_writes rp).filter (fun e => e.1 != 0x80))[3]? =
        some ((create_pic_structs).2.data, (create_pic_structs).2.offset) ∧
    (create_pic_structs).1.offset = PIC_1_OFFSET ∧
    (create_pic_structs).2.offset = PIC_2_OFFSET ∧
    PIC_1_OFFSET = 0x20 ∧ PIC_2_OFFSET = 0x28 ∧
    (handles_interrupt v = true ↔
      ((create_pic_structs).1.offset ≤ v ∧ v < (create_pic_structs).1.offset + 8) ∨
      ((create_pic_structs).2.offset ≤ v ∧ v < (create_pic_structs).2.offset + 8)) ∧
    (notify_end_of_interrupt v ≠ [] ↔ handles_interrupt v = true) := by
  refine ⟨rfl, rfl, rfl, rfl, rfl, rfl, ?_, ?_⟩
  · simp only [handles_interrupt, create_pic_structs, Pic.handles_interrupt,
      PIC_1_OFFSET, PIC_2_OFFSET, Bool.or_eq_true, decide_eq_true_iff]
    try omega
  · simp only [notify_end_of_interrupt, handles_interrupt, create_pic_structs,
      Pic.end_of_interrupt]
    split_ifs with h1 h2 <;> simp_all

/-- Witness for C9 at the concrete vector `0x2A`. -/
theorem pic_offsets_single_source_witness :
    (0x2A : Nat) < 256 ∧
      (notify_end_of_interrupt 0x2A ≠ [] ↔ handles_interrupt 0x2A = true) :=
  ⟨by decide, (pic_offsets_single_source (fun _ => 0) 0x2A (by decide)).2.2.2.2.2.2.2⟩

/-- Checked `u8` addition: `some` of the sum when it fits in a byte, `none`
when the Rust debug-mode addition would overflow and panic. -/
def u8_checked_add (a b : Nat) : Option Nat :=
  if a + b < 256 then some (a + b) else none

/-- `Pic::handles_interrupt` with the `offset + 8` addition checked instead of
wrapping: `none` models a `u8` overflow panic. -/
def Pic.handles_interrupt_checked (p : Pic) (interrupt_id : Nat) : Option Bool :=
  match u8_checked_add p.offset 8 with
  | some s => some (decide (p.offset ≤ interrupt_id ∧ interrupt_id < s))
  | none => none

/-- The public `handles_interrupt` with checked arithmetic in both chips. -/
def handles_interrupt_checked (interrupt_id : Nat) : Option Bool :=
  let (pic_1, pic_2) := create_pic_structs
  match pic_1.handles_interrupt_checked interrupt_id,
        pic_2.handles_interrupt_checked interrupt_id with
  | some a, some b => some (a || b)
  | _, _ => none

/-- C10: `handles_interrupt` is total on all 256 byte inputs with no `u8`
overflow: `offset + 8` is `0x28` for the primary and `0x30` for the secondary,
both in range, so the checked computation never panics and agrees with the
actual function on every vector. -/
theorem handles_interrupt_no_overflow (v : Nat) (hv : v < 256) :
    u8_checked_add (create_pic_structs).1.offset 8 = some 0x28 ∧
    u8_checked_add (create_pic_structs).2.offset 8 = some 0x30 ∧
    handles_interrupt_checked v = some (handles_interrupt v) :=
  ⟨rfl, rfl, rfl⟩

/-- Witness for C10 at the concrete vector `0xFF`. -/
theorem handles_interrupt_no_overflow_witness :
    (0xFF : Nat) < 256 ∧ handles_interrupt_checked 0xFF = some (handles_interrupt 0xFF) :=
  ⟨by decide, (handles_interrupt_no_overflow 0xFF (by decide)).2.2⟩

/-- Positions of the non-delay writes (address not `0x80`) in a write trace.
In the `initialize` trace the first 8 of these are the configuration writes
and the rest are the mask-restore writes. -/
def nondelay_positions (t : List (Nat × Nat)) : List Nat :=
  (List.range t.length).filter fun i => (t.getD i (0, 0)).1 != 0x80

/-- Formal rendering of claim C6 on a write trace: each of the first 8
non-delay writes (the configuration writes) is immediately preceded by a
delay write to `0x80`, and the remaining non-delay writes (the mask
restores) have no delay write immediately before them. -/
def delay_precedes_claim (t : List (Nat × Nat)) : Prop :=
  (∀ i ∈ (nondelay_positions t).take 8, 0 < i ∧ (t.getD (i - 1) (0, 0)).1 = 0x80) ∧
  (∀ i ∈ (nondelay_positions t).drop 8, ¬ (0 < i ∧ (t.getD (i - 1) (0, 0)).1 = 0x80))

/-- Counterexample to C6: on the trace of `initialize` (with all mask reads
returning `0`) the claim fails — the first configuration write is the very
first write and has no delay before it, and the first mask-restore write is
immediately preceded by the delay that follows the last configuration
write. -/
theorem initialize_delay_precedes_false :
    ¬ delay_precedes_claim (initialize_writes fun _ => 0) := by
  unfold delay_precedes_claim
  decide

/-- Amended C6 on a write trace: each of the 8 configuration writes is
immediately followed by a delay write to `0x80`, and the 2 mask-restore
writes are the final two writes of the trace, with no delay between or
after them. -/
def delay_follows_property (t : List (Nat × Nat)) : Prop :=
  (∀ i ∈ (nondelay_positions t).take 8, (t.getD (i + 1) (0, 0)).1 = 0x80) ∧
  (nondelay_positions t).drop 8 = [t.length - 2, t.length - 1]

/-- The non-delay writes of `initialize` sit at these fixed positions:
`0`–`14` even are the configuration writes, `16` and `17` the restores. -/
theorem nondelay_positions_init (rp : Nat → Nat) :
    nondelay_positions (initialize_writes rp) =
      [0, 2, 4, 6, 8, 10, 12, 14, 16, 17] :=
  rfl

/-- C6 amended: in the `initialize` write trace each of the 8 configuration
writes is immediately followed by a delay write to `0x80`, and the 2
mask-restore writes are the final two writes, with no delay between or after
them. -/
theorem initialize_delay_follows (rp : Nat → Nat) :
    delay_follows_property (initialize_writes rp) := by
  unfold delay_follows_property
  rw [nondelay_positions_init rp]
  refine ⟨?_, rfl⟩
  intro i hi
  fin_cases hi <;> rfl
